import Mathlib

/-!
# Task Manager API (`sit323-monitoring-task1/app.js`)

A shallow embedding of the Express application in `app.js`: the middleware chain
(`express.json()`, the metrics middleware, the five routes), the `http_requests_total`
counter and the `Task` collection, as a step function on an explicit application state.

What the libraries do (Express routing, the mapping layer, the metrics registry) is not
part of `app.js`; each definition that stands for a library call says so and names the
line of `app.js` that makes the call.  Response headers are not modelled.
-/

namespace TaskManager

/-! ## JSON values, requests and responses -/

/-- JSON values, as carried by request bodies and by `res.json`. -/
inductive Json where
  | null
  | bool (b : Bool)
  | num (n : Int)
  | str (s : String)
  | arr (items : List Json)
  | obj (fields : List (String × Json))

/-- Property lookup on a parsed body: only an object has named properties. -/
def Json.field : Json → String → Option Json
  | .obj kvs, k => kvs.lookup k
  | _, _ => none

/-- What a request carries as its body, as far as `express.json()` is concerned. -/
inductive Payload where
  /-- no body, or a content type that `express.json()` leaves alone -/
  | none
  /-- a JSON content type, a supported charset and encoding, and text within the size limit
  (100kb) that parses to `j` -/
  | json (j : Json)
  /-- a JSON content type, a supported charset and encoding, and text within the size limit
  that does not parse -/
  | malformed
  /-- a JSON content type with a body over the size limit -/
  | oversized
  /-- a JSON content type with a charset or content encoding the parser does not support -/
  | unsupported

/-- An inbound request: `req.method`, `req.path` and the body on the wire. -/
structure Request where
  method : String
  path : String
  payload : Payload

/-- The body of a response. -/
inductive Body where
  /-- a string sent with `res.send` or `res.end` -/
  | text (s : String)
  /-- a value sent with `res.json` -/
  | json (j : Json)
  /-- the page Express writes itself (body-parser failure, no matching route) -/
  | errorPage
  /-- nothing on the wire (reply to a `HEAD` request) -/
  | empty

/-- A finished response: `res.statusCode` and the body. -/
structure Response where
  status : Nat
  body : Body

/-- The body parser `express.json()` (app.js:33) with its default options: a request
without a JSON body passes with an empty object as `req.body`; a JSON body must be in a
supported charset and encoding, stay within 100kb and parse to an object or an array
(strict mode); anything else makes the parser call `next(err)`, here `none`. -/
def expressJson : Payload → Option Json
  | .none => some (.obj [])
  | .json (.obj kvs) => some (.obj kvs)
  | .json (.arr items) => some (.arr items)
  | .json _ => Option.none
  | .malformed => Option.none
  | .oversized => Option.none
  | .unsupported => Option.none

/-- The status of the error `express.json()` passes to `next` for a body it refuses: 413
over the size limit, 415 for an unsupported charset or encoding, 400 for text that does
not parse to an object or an array. -/
def refusalStatus : Payload → Nat
  | .oversized => 413
  | .unsupported => 415
  | _ => 400

/-! ## The request counter (app.js:11-16) -/

/-- The label set of `httpRequestCounter`: method, route and status_code (app.js:15). -/
structure Labels where
  method : String
  route : String
  status_code : Nat
  deriving DecidableEq, Repr

/-- The samples of a labelled counter: one entry per label set seen so far. -/
abbrev Counter := List (Labels × Nat)

/-- The call `counter.inc(labels)`: add one to the sample of `labels`, creating it on
first use. -/
def Counter.inc : Counter → Labels → Counter
  | [], l => [(l, 1)]
  | (k, v) :: rest, l => if k = l then (k, v + 1) :: rest else (k, v) :: Counter.inc rest l

/-- The value of the sample of `labels` (zero when it was never incremented). -/
def Counter.get : Counter → Labels → Nat
  | [], _ => 0
  | (k, v) :: rest, l => if k = l then v else Counter.get rest l

/-- The sum of the samples of the counter over all label sets. -/
def Counter.total (c : Counter) : Nat := (c.map Prod.snd).sum

/-- The counter name, app.js:13. -/
def counterName : String := "http_requests_total"

/-- The counter help text, app.js:14. -/
def counterHelp : String := "Total number of HTTP requests"

/-- Modelled from the spec: one sample line of the text exposition format
(`prom.register.metrics()` is prom-client code, not part of app.js). -/
def sampleLine (l : Labels) (v : Nat) : String :=
  counterName ++ "\x7bmethod=\"" ++ l.method ++ "\",route=\"" ++ l.route
    ++ "\",status_code=\"" ++ toString l.status_code ++ "\"\x7d " ++ toString v ++ "\n"

/-- Modelled from the spec: `render()` of the metrics registry (`prom.register.metrics()`,
app.js:78, prom-client code). It always succeeds and yields the text exposition of the
registry: the default runtime gauges (their current text is the argument `defaults`),
then the registered counter, with its `HELP` and `TYPE` lines and one line per sample. -/
def render (defaults : String) (c : Counter) : String :=
  defaults ++ ("# HELP " ++ counterName ++ (" " ++ counterHelp ++ "\n# TYPE " ++ counterName
    ++ " counter\n" ++ String.join (c.map fun s => sampleLine s.1 s.2)))

/-! ## The Task model (app.js:24-31) -/

/-- A failure of a persistence call, as seen by the `catch` of a handler. -/
inductive PersistenceError where
  /-- the store cannot be reached -/
  | unreachable
  /-- the store or the mapping layer rejects the document -/
  | rejected
  deriving DecidableEq, Repr

/-- The value a document holds at a schema path. -/
inductive Stored (α : Type) where
  /-- the path was never set -/
  | unset
  /-- the path holds `null` -/
  | null
  /-- the path holds a value of its type -/
  | value (a : α)
  deriving DecidableEq, Repr

/-- A Task document: the identifier and the three paths of `taskSchema`
(`title: String`, `completed: Boolean`, `createdAt: Date`). The identifier is the number
that stands for the generated ObjectId, an instant is its number of milliseconds since the
epoch. -/
structure Task where
  id : Nat
  title : Stored String
  completed : Stored Bool
  createdAt : Stored Int
  deriving DecidableEq, Repr

/-- Modelled from the spec: the coercions of the mapping layer (mongoose casting, not part
of app.js), one per schema type. `none` is a value that cannot be coerced, `some none` a
value stored as `null`. The spec fixes only that a string is a valid `title`, a boolean a
valid `completed` and an instant a valid `createdAt`, each kept as it is. -/
structure Mapping where
  castString : Json → Option (Option String)
  castBool : Json → Option (Option Bool)
  castDate : Json → Option (Option Int)
  castString_str : ∀ s, castString (.str s) = some (some s)
  castBool_bool : ∀ b, castBool (.bool b) = some (some b)
  castDate_num : ∀ n, castDate (.num n) = some (some n)

/-- A mapping layer that takes each path at its declared type only. -/
def Mapping.typed : Mapping where
  castString
    | .str s => some (some s)
    | .null => some none
    | _ => none
  castBool
    | .bool b => some (some b)
    | .null => some none
    | _ => none
  castDate
    | .num n => some (some n)
    | .null => some none
    | _ => none
  castString_str := fun _ => rfl
  castBool_bool := fun _ => rfl
  castDate_num := fun _ => rfl

/-- What the process reads from its surroundings while it serves one request. -/
structure Env where
  /-- whether the store answers the persistence call of this request -/
  dbUp : Bool
  /-- the clock, `Date.now()` -/
  now : Int
  /-- the identifier generated for a document constructed in this request -/
  freshId : Nat
  /-- the current text of the default runtime gauges (`collectDefaultMetrics`, app.js:9) -/
  runtimeMetrics : String

/-- One schema path of a new document: the default when the body lacks the property,
the coerced value (or `null`) otherwise, a rejection when the value cannot be coerced. -/
def castPath {α : Type} (cast : Json → Option (Option α)) (dflt : Stored α) :
    Option Json → Except PersistenceError (Stored α)
  | none => .ok dflt
  | some v =>
    match cast v with
    | some (some x) => .ok (.value x)
    | some none => .ok .null
    | none => .error .rejected

/-- Modelled from the spec: `new Task(req.body)` (app.js:66) under `taskSchema`
(app.js:25-29): `title` and `completed` are taken from the body, `createdAt` is taken from
the body or defaults to `Date.now`, other properties are ignored, the identifier is newly
generated. A value that cannot be coerced fails the write (mongoose reports it when
`save()` validates; both calls stand in the same `try`). -/
def Task.new (M : Mapping) (env : Env) (body : Json) : Except PersistenceError Task :=
  match castPath M.castString .unset (body.field "title") with
  | .error e => .error e
  | .ok title =>
    match castPath M.castBool .unset (body.field "completed") with
    | .error e => .error e
    | .ok completed =>
      match castPath M.castDate (.value env.now) (body.field "createdAt") with
      | .error e => .error e
      | .ok createdAt =>
        .ok { id := env.freshId, title := title, completed := completed, createdAt := createdAt }

/-- Modelled from the spec: `task.save()` (app.js:67): fails when the store is unreachable
or rejects the write (an identifier that is already stored), otherwise the document is
added to the collection. -/
def Task.save (store : List Task) (env : Env) (task : Task) :
    Except PersistenceError (List Task) :=
  if env.dbUp = false then .error .unreachable
  else if store.any (fun d => d.id == task.id) then .error .rejected
  else .ok (store ++ [task])

/-- Modelled from the spec: `Task.find()` (app.js:55): every stored document, in the
order of the store; fails when the store is unreachable. -/
def Task.find (store : List Task) (env : Env) : Except PersistenceError (List Task) :=
  if env.dbUp = true then .ok store else .error .unreachable

/-- An optional property of a serialised document. -/
def optField (k : String) : Option Json → List (String × Json)
  | none => []
  | some v => [(k, v)]

/-- The JSON form of the value at a schema path: no property for a path that was never
set, `null` for a null path, the value otherwise. -/
def Stored.toJson {α : Type} (f : α → Json) : Stored α → Option Json
  | .unset => none
  | .null => some .null
  | .value a => some (f a)

/-- The JSON form of a document, as `res.json` writes it: the identifier, the paths that
were set, and the version key `__v`, which is 0 for a document that was never updated.
The identifier and an instant are written as the numbers that stand for them; a JSON
object is read by property name, the order of its properties carries no meaning. -/
def Task.toJson (t : Task) : Json :=
  .obj ([("_id", .num t.id)] ++ optField "title" (t.title.toJson .str)
    ++ optField "completed" (t.completed.toJson .bool)
    ++ optField "createdAt" (t.createdAt.toJson .num) ++ [("__v", .num 0)])

/-! ## Handlers (app.js:47-85) -/

/-- The outcome of one handler: `.ok` with the collection it leaves and the response it
sent, `.error` when an exception or rejection leaves the handler before it responds. -/
abbrev Handled := Except PersistenceError (List Task × Response)

/-- The handler of `GET /`, app.js:48-50. -/
def getRoot (store : List Task) : Handled :=
  .ok (store, ⟨200, .text "Task Manager API is running"⟩)

/-- The handler of `GET /tasks`, app.js:53-61. -/
def getTasks (store : List Task) (env : Env) : Handled :=
  match Task.find store env with
  | .ok tasks => .ok (store, ⟨200, .json (.arr (tasks.map Task.toJson))⟩)
  | .error _ => .ok (store, ⟨500, .json (.obj [("error", .str "Failed to fetch tasks")])⟩)

/-- The `try` block of the handler of `POST /tasks`, app.js:66-67. -/
def createTask (M : Mapping) (store : List Task) (env : Env) (body : Json) :
    Except PersistenceError (List Task × Task) :=
  match Task.new M env body with
  | .error e => .error e
  | .ok task =>
    match Task.save store env task with
    | .error e => .error e
    | .ok store1 => .ok (store1, task)

/-- The handler of `POST /tasks`, app.js:64-73. -/
def postTasks (M : Mapping) (store : List Task) (env : Env) (body : Json) : Handled :=
  match createTask M store env body with
  | .ok (store1, task) => .ok (store1, ⟨201, .json task.toJson⟩)
  | .error _ => .ok (store, ⟨400, .json (.obj [("error", .str "Failed to create task")])⟩)

/-- The handler of `GET /metrics`, app.js:76-80. -/
def getMetrics (store : List Task) (env : Env) (httpRequestCounter : Counter) : Handled :=
  .ok (store, ⟨200, .text (render env.runtimeMetrics httpRequestCounter)⟩)

/-- The handler of `GET /health`, app.js:83-85. -/
def getHealth (store : List Task) : Handled :=
  .ok (store, ⟨200, .json (.obj [("status", .str "ok")])⟩)

/-! ## Routing -/

/-- The five handlers. -/
inductive Handler where
  | root
  | listTasks
  | createTask
  | metrics
  | health
  deriving DecidableEq, Repr

/-- One registered route: `app.get(path, h)` or `app.post(path, h)`. -/
structure Route where
  method : String
  path : String
  handler : Handler

/-- The routes in the order app.js registers them (lines 48, 53, 64, 76, 83). -/
def routes : List Route :=
  [⟨"GET", "/", .root⟩, ⟨"GET", "/tasks", .listTasks⟩, ⟨"POST", "/tasks", .createTask⟩,
   ⟨"GET", "/metrics", .metrics⟩, ⟨"GET", "/health", .health⟩]

/-- Drop one trailing slash. -/
def stripSlash : List Char → List Char
  | [] => []
  | [c] => if c = '/' then [] else [c]
  | c :: cs => c :: stripSlash cs

/-- The default path matching of Express: the whole path, letter case ignored, one trailing
slash optional. -/
def pathMatches (pattern path : String) : Bool :=
  stripSlash (path.data.map Char.toLower) == stripSlash (pattern.data.map Char.toLower)

/-- A route takes the requests of its own method; a `GET` route also takes `HEAD`. -/
def handlesMethod (routeMethod reqMethod : String) : Bool :=
  reqMethod == routeMethod || (routeMethod == "GET" && reqMethod == "HEAD")

/-- Whether a route takes a request with this method and path. -/
def Route.accepts (r : Route) (method path : String) : Bool :=
  pathMatches r.path path && handlesMethod r.method method

/-- The handler of the first registered route that takes this method and path. -/
def resolve (method path : String) : Option Handler :=
  (routes.find? fun r => r.accepts method path).map Route.handler

/-- The handler the router picks for a request. -/
def findRoute (req : Request) : Option Handler :=
  resolve req.method req.path

/-- The methods Express lists for a route in its automatic `OPTIONS` reply. -/
def Route.options (r : Route) : List String :=
  if r.method = "GET" then ["GET", "HEAD"] else [r.method]

/-- The reply Express writes when no route takes the request: the automatic `OPTIONS`
reply when some route has the path, the 404 page otherwise. -/
def unrouted (req : Request) : Response :=
  let allowed := ((routes.filter fun r => pathMatches r.path req.path).map Route.options).flatten
  if req.method = "OPTIONS" ∧ allowed ≠ [] then ⟨200, .text (",".intercalate allowed)⟩
  else ⟨404, .errorPage⟩

/-- Run the handler of a route. -/
def runHandler (M : Mapping) (store : List Task) (httpRequestCounter : Counter) (env : Env)
    (body : Json) : Handler → Handled
  | .root => getRoot store
  | .listTasks => getTasks store env
  | .createTask => postTasks M store env body
  | .metrics => getMetrics store env httpRequestCounter
  | .health => getHealth store

/-- The router behind the metrics middleware; a `HEAD` reply goes out without its body. -/
def dispatch (M : Mapping) (store : List Task) (httpRequestCounter : Counter) (env : Env)
    (req : Request) (body : Json) : Handled :=
  match findRoute req with
  | none => .ok (store, unrouted req)
  | some h =>
    match runHandler M store httpRequestCounter env body h with
    | .error e => .error e
    | .ok (store1, res) =>
      .ok (store1, if req.method = "HEAD" then { res with body := .empty } else res)

/-! ## The application -/

/-- The state the process keeps between requests: the Task collection (held by the store)
and the samples of `httpRequestCounter`. -/
structure AppState where
  store : List Task
  httpRequestCounter : Counter

/-- The state at process start: whatever the store holds, no sample yet. -/
def AppState.init (store : List Task) : AppState := ⟨store, []⟩

/-- Serve one request through the middleware chain of app.js:33-85.

* `express.json()` (line 33): when it rejects the body it calls `next(err)`; Express then
  skips every middleware and route that is not an error handler, and its default error
  handler replies with the status of the error.
* the metrics middleware (lines 36-45): registers the `finish` hook and calls `next()`;
  the hook increments the counter with `req.method`, `req.path` and `res.statusCode` once
  the response has been written.
* the routes (lines 48-85).

The result is the next state and the response, `none` when no response is ever sent. -/
def handle (M : Mapping) (st : AppState) (env : Env) (req : Request) :
    AppState × Option Response :=
  match expressJson req.payload with
  | none => (st, some ⟨refusalStatus req.payload, .errorPage⟩)
  | some body =>
    match dispatch M st.store st.httpRequestCounter env req body with
    | .ok (store1, res) =>
      (⟨store1, st.httpRequestCounter.inc ⟨req.method, req.path, res.status⟩⟩, some res)
    | .error _ => (st, none)

/-- Serve a sequence of requests, one after the other. -/
def run (M : Mapping) : AppState → List (Env × Request) → AppState × List (Option Response)
  | st, [] => (st, [])
  | st, (env, req) :: rest =>
    let r := handle M st env req
    let rs := run M r.1 rest
    (rs.1, r.2 :: rs.2)

/-! ## Routing facts -/

theorem findRoute_root (payload : Payload) :
    findRoute ⟨"GET", "/", payload⟩ = some .root :=
  show resolve "GET" "/" = some .root by decide

theorem findRoute_listTasks (payload : Payload) :
    findRoute ⟨"GET", "/tasks", payload⟩ = some .listTasks :=
  show resolve "GET" "/tasks" = some .listTasks by decide

theorem findRoute_createTask (payload : Payload) :
    findRoute ⟨"POST", "/tasks", payload⟩ = some .createTask :=
  show resolve "POST" "/tasks" = some .createTask by decide

theorem findRoute_metrics (payload : Payload) :
    findRoute ⟨"GET", "/metrics", payload⟩ = some .metrics :=
  show resolve "GET" "/metrics" = some .metrics by decide

theorem findRoute_health (payload : Payload) :
    findRoute ⟨"GET", "/health", payload⟩ = some .health :=
  show resolve "GET" "/health" = some .health by decide

/-! ## Error handling of the task handlers -/

/-- C1: when the persistence call of a task handler fails (the request has reached the
handler, so the body parser let it through), the handler answers:
`GET /tasks` with status 500, `POST /tasks` with status 400, each with a JSON body that has
an `error` property; and neither handler ever lets a failure out, whatever the store, the
surroundings and the body are. -/
theorem persistence_failure_answered (M : Mapping) (st : AppState) (env : Env)
    (payload : Payload) (body : Json) (hbody : expressJson payload = some body) :
    (∀ e, Task.find st.store env = .error e →
      ∃ j, (handle M st env ⟨"GET", "/tasks", payload⟩).2 = some ⟨500, .json j⟩
        ∧ (j.field "error").isSome = true) ∧
    (∀ e, createTask M st.store env body = .error e →
      ∃ j, (handle M st env ⟨"POST", "/tasks", payload⟩).2 = some ⟨400, .json j⟩
        ∧ (j.field "error").isSome = true) ∧
    (∃ r, getTasks st.store env = .ok r) ∧
    (∃ r, postTasks M st.store env body = .ok r) := by
  refine ⟨?_, ?_, ?_, ?_⟩
  · intro e he
    refine ⟨.obj [("error", .str "Failed to fetch tasks")], ?_, rfl⟩
    simp [handle, hbody, dispatch, findRoute_listTasks, runHandler, getTasks, he]
  · intro e he
    refine ⟨.obj [("error", .str "Failed to create task")], ?_, rfl⟩
    simp [handle, hbody, dispatch, findRoute_createTask, runHandler, postTasks, he]
  · unfold getTasks
    cases Task.find st.store env <;> exact ⟨_, rfl⟩
  · unfold postTasks
    cases h : createTask M st.store env body with
    | error e => exact ⟨_, rfl⟩
    | ok r => exact ⟨_, rfl⟩

/-- Witness for C1: with the store down, `GET /tasks` answers 500 and `POST /tasks`
answers 400, each with an `error` property. -/
theorem persistence_failure_answered_witness :
    expressJson Payload.none = some (.obj []) ∧
    Task.find [] (⟨false, 0, 1, ""⟩ : Env) = .error .unreachable ∧
    createTask Mapping.typed [] (⟨false, 0, 1, ""⟩ : Env) (.obj []) = .error .unreachable ∧
    (∃ j, (handle Mapping.typed (AppState.init []) ⟨false, 0, 1, ""⟩
        ⟨"GET", "/tasks", .none⟩).2 = some ⟨500, .json j⟩ ∧ (j.field "error").isSome = true) ∧
    (∃ j, (handle Mapping.typed (AppState.init []) ⟨false, 0, 1, ""⟩
        ⟨"POST", "/tasks", .none⟩).2 = some ⟨400, .json j⟩ ∧ (j.field "error").isSome = true) :=
  have h := persistence_failure_answered Mapping.typed (AppState.init []) ⟨false, 0, 1, ""⟩
    Payload.none (.obj []) rfl
  ⟨rfl, rfl, rfl, h.1 _ rfl, h.2.1 _ rfl⟩

/-! ## The static endpoints -/

/-- C6: `GET /health` (with no body, or one the body parser lets through) answers 200 with
the JSON body `{status: "ok"}` whatever the state of the database connection, the store
and the earlier requests are; it leaves the store as it is (the handler makes no
persistence call), and the response is counted under status 200. -/
theorem health_always_ok (M : Mapping) (st : AppState) (env : Env) (payload : Payload)
    (body : Json) (hbody : expressJson payload = some body) :
    handle M st env ⟨"GET", "/health", payload⟩ =
      (⟨st.store, st.httpRequestCounter.inc ⟨"GET", "/health", 200⟩⟩,
        some ⟨200, .json (.obj [("status", .str "ok")])⟩) := by
  simp [handle, hbody, dispatch, findRoute_health, runHandler, getHealth]

/-- Witness for C6: a `GET /health` without a body while the store is down. -/
theorem health_always_ok_witness :
    expressJson Payload.none = some (.obj []) ∧
    handle Mapping.typed (AppState.init []) ⟨false, 0, 1, ""⟩ ⟨"GET", "/health", .none⟩ =
      (⟨[], Counter.inc [] ⟨"GET", "/health", 200⟩⟩,
        some ⟨200, .json (.obj [("status", .str "ok")])⟩) :=
  ⟨rfl, health_always_ok Mapping.typed (AppState.init []) ⟨false, 0, 1, ""⟩ .none (.obj []) rfl⟩

/-- C7: `GET /` (with no body, or one the body parser lets through) answers 200 with the
literal body `Task Manager API is running`, whatever the store, the surroundings and the
earlier requests (the state they left) are. -/
theorem root_always_running (M : Mapping) (st : AppState) (env : Env) (payload : Payload)
    (body : Json) (hbody : expressJson payload = some body) :
    handle M st env ⟨"GET", "/", payload⟩ =
      (⟨st.store, st.httpRequestCounter.inc ⟨"GET", "/", 200⟩⟩,
        some ⟨200, .text "Task Manager API is running"⟩) := by
  simp [handle, hbody, dispatch, findRoute_root, runHandler, getRoot]

/-- Witness for C7: a `GET /` without a body on a store that holds one document. -/
theorem root_always_running_witness :
    expressJson Payload.none = some (.obj []) ∧
    handle Mapping.typed (AppState.init [⟨7, .value "a", .value true, .value 5⟩])
        ⟨false, 0, 1, ""⟩ ⟨"GET", "/", .none⟩ =
      (⟨[⟨7, .value "a", .value true, .value 5⟩], Counter.inc [] ⟨"GET", "/", 200⟩⟩,
        some ⟨200, .text "Task Manager API is running"⟩) :=
  ⟨rfl, root_always_running Mapping.typed
    (AppState.init [⟨7, .value "a", .value true, .value 5⟩])
    ⟨false, 0, 1, ""⟩ .none (.obj []) rfl⟩

/-! ## The task endpoints -/

theorem castPath_none {α : Type} (cast : Json → Option (Option α)) (dflt x : Stored α)
    (h : castPath cast dflt none = .ok x) : x = dflt := by
  simp only [castPath, Except.ok.injEq] at h
  exact h.symm

theorem castPath_some {α : Type} (cast : Json → Option (Option α)) (dflt x : Stored α)
    (v : Json) (h : castPath cast dflt (some v) = .ok x) :
    ∃ c, cast v = some c ∧ x = (match c with | none => Stored.null | some a => .value a) := by
  simp only [castPath] at h
  cases hc : cast v with
  | none => simp [hc] at h
  | some y =>
    cases y with
    | none =>
      simp only [hc, Except.ok.injEq] at h
      exact ⟨none, rfl, h.symm⟩
    | some a =>
      simp only [hc, Except.ok.injEq] at h
      exact ⟨some a, rfl, h.symm⟩

theorem Task.new_ok (M : Mapping) (env : Env) (body : Json) (task : Task)
    (h : Task.new M env body = .ok task) :
    task.id = env.freshId
    ∧ castPath M.castString .unset (body.field "title") = .ok task.title
    ∧ castPath M.castBool .unset (body.field "completed") = .ok task.completed
    ∧ castPath M.castDate (.value env.now) (body.field "createdAt") = .ok task.createdAt := by
  unfold Task.new at h
  cases h1 : castPath M.castString .unset (body.field "title") with
  | error e => simp [h1] at h
  | ok title =>
    cases h2 : castPath M.castBool .unset (body.field "completed") with
    | error e => simp [h1, h2] at h
    | ok completed =>
      cases h3 : castPath M.castDate (.value env.now) (body.field "createdAt") with
      | error e => simp [h1, h2, h3] at h
      | ok createdAt =>
        simp only [h1, h2, h3, Except.ok.injEq] at h
        subst h
        exact ⟨rfl, rfl, rfl, rfl⟩

theorem Task.save_ok (store store1 : List Task) (env : Env) (task : Task)
    (h : Task.save store env task = .ok store1) :
    env.dbUp = true ∧ (∀ d ∈ store, d.id ≠ task.id) ∧ store1 = store ++ [task] := by
  unfold Task.save at h
  split at h
  · simp at h
  · split at h
    · simp at h
    · rename_i hup hdup
      refine ⟨by simpa using hup, ?_, (Except.ok.inj h).symm⟩
      intro d hd heq
      apply hdup
      rw [List.any_eq_true]
      exact ⟨d, hd, by simpa using heq⟩

theorem Task.find_ok (store tasks : List Task) (env : Env)
    (h : Task.find store env = .ok tasks) : tasks = store := by
  unfold Task.find at h
  split at h
  · exact (Except.ok.inj h).symm
  · exact absurd h (by simp)

theorem createTask_ok (M : Mapping) (store store1 : List Task) (env : Env) (body : Json)
    (task : Task) (h : createTask M store env body = .ok (store1, task)) :
    Task.new M env body = .ok task ∧ Task.save store env task = .ok store1 := by
  unfold createTask at h
  cases h1 : Task.new M env body with
  | error e => simp [h1] at h
  | ok t =>
    cases h2 : Task.save store env t with
    | error e => simp [h1, h2] at h
    | ok s1 =>
      simp only [h1, h2, Except.ok.injEq, Prod.mk.injEq] at h
      obtain ⟨hs, ht⟩ := h
      subst hs
      subst ht
      exact ⟨rfl, h2⟩

/-- What `res.json` writes for a document, read back property by property. -/
theorem Task.toJson_fields (d : Task) :
    d.toJson.field "_id" = some (.num d.id)
    ∧ d.toJson.field "title" = (match d.title with
        | .unset => none | .null => some .null | .value s => some (.str s))
    ∧ d.toJson.field "completed" = (match d.completed with
        | .unset => none | .null => some .null | .value b => some (.bool b))
    ∧ d.toJson.field "createdAt" = (match d.createdAt with
        | .unset => none | .null => some .null | .value n => some (.num n))
    ∧ d.toJson.field "__v" = some (.num 0) := by
  obtain ⟨id, title, completed, createdAt⟩ := d
  cases title <;> cases completed <;> cases createdAt <;>
    simp [Task.toJson, Stored.toJson, optField, Json.field, List.lookup]

theorem handle_createTask_ok (M : Mapping) (st : AppState) (env : Env) (payload : Payload)
    (body : Json) (store1 : List Task) (task : Task) (hbody : expressJson payload = some body)
    (hsave : createTask M st.store env body = .ok (store1, task)) :
    handle M st env ⟨"POST", "/tasks", payload⟩ =
      (⟨store1, st.httpRequestCounter.inc ⟨"POST", "/tasks", 201⟩⟩,
        some ⟨201, .json task.toJson⟩) := by
  simp [handle, hbody, dispatch, findRoute_createTask, runHandler, postTasks, hsave]

theorem handle_createTask_error (M : Mapping) (st : AppState) (env : Env)
    (payload : Payload) (body : Json) (e : PersistenceError)
    (hbody : expressJson payload = some body)
    (hfail : createTask M st.store env body = .error e) :
    handle M st env ⟨"POST", "/tasks", payload⟩ =
      (⟨st.store, st.httpRequestCounter.inc ⟨"POST", "/tasks", 400⟩⟩,
        some ⟨400, .json (.obj [("error", .str "Failed to create task")])⟩) := by
  simp [handle, hbody, dispatch, findRoute_createTask, runHandler, postTasks, hfail]

theorem handle_listTasks_ok (M : Mapping) (st : AppState) (env : Env) (payload : Payload)
    (body : Json) (tasks : List Task) (hbody : expressJson payload = some body)
    (hfind : Task.find st.store env = .ok tasks) :
    handle M st env ⟨"GET", "/tasks", payload⟩ =
      (⟨st.store, st.httpRequestCounter.inc ⟨"GET", "/tasks", 200⟩⟩,
        some ⟨200, .json (.arr (tasks.map Task.toJson))⟩) := by
  simp [handle, hbody, dispatch, findRoute_listTasks, runHandler, getTasks, hfind]

/-- A `POST /tasks` that answers 201 is one whose `try` block went through. -/
theorem createTask_of_created (M : Mapping) (st : AppState) (env : Env) (payload : Payload)
    (body : Json) (res : Response) (hbody : expressJson payload = some body)
    (hres : (handle M st env ⟨"POST", "/tasks", payload⟩).2 = some res)
    (hstatus : res.status = 201) :
    ∃ store1 task, createTask M st.store env body = .ok (store1, task) := by
  cases hc : createTask M st.store env body with
  | ok r => exact ⟨r.1, r.2, rfl⟩
  | error e =>
    rw [handle_createTask_error M st env payload body e hbody hc] at hres
    have h := Option.some.inj hres
    rw [← h] at hstatus
    exact absurd hstatus (by decide)

/-! ### Listing -/

/-- C5: when the find succeeds, `GET /tasks` (with no body, or one the body parser lets
through) answers 200 with a JSON array that has one item per stored document, in the order
of the store, and nothing else: the item at each position carries the identifier of the
stored document at that position, its `title`, `completed` and `createdAt` (the value,
`null` for a null path, no property for a path never set), and the version key. The
handler leaves the store as it is. -/
theorem list_tasks_complete (M : Mapping) (st : AppState) (env : Env) (payload : Payload)
    (body : Json) (tasks : List Task) (hbody : expressJson payload = some body)
    (hfind : Task.find st.store env = .ok tasks) :
    ∃ items : List Json,
      handle M st env ⟨"GET", "/tasks", payload⟩ =
        (⟨st.store, st.httpRequestCounter.inc ⟨"GET", "/tasks", 200⟩⟩,
          some ⟨200, .json (.arr items)⟩)
      ∧ tasks = st.store
      ∧ items = st.store.map Task.toJson
      ∧ items.length = st.store.length
      ∧ ∀ (i : Nat) (d : Task), st.store[i]? = some d →
          ∃ j : Json, items[i]? = some j
            ∧ j.field "_id" = some (.num d.id)
            ∧ j.field "title" = (match d.title with
                | .unset => none | .null => some .null | .value s => some (.str s))
            ∧ j.field "completed" = (match d.completed with
                | .unset => none | .null => some .null | .value b => some (.bool b))
            ∧ j.field "createdAt" = (match d.createdAt with
                | .unset => none | .null => some .null | .value n => some (.num n))
            ∧ j.field "__v" = some (.num 0) := by
  have htasks := Task.find_ok _ _ _ hfind
  refine ⟨st.store.map Task.toJson, ?_, htasks, rfl, by simp, ?_⟩
  · rw [handle_listTasks_ok M st env payload body tasks hbody hfind, htasks]
  · intro i d hd
    exact ⟨d.toJson, by simp [hd], Task.toJson_fields d⟩

/-- Witness for C5: a store with two documents, the second with a null title and no
`completed`; the list has two items and the second shows identifier 3 and a null title. -/
theorem list_tasks_complete_witness :
    expressJson Payload.none = some (.obj []) ∧
    Task.find (AppState.init
        [⟨7, .value "a", .value true, .value 5⟩, ⟨3, .null, .unset, .value 9⟩]).store
        (⟨true, 0, 1, ""⟩ : Env) =
      .ok [⟨7, .value "a", .value true, .value 5⟩, ⟨3, .null, .unset, .value 9⟩] ∧
    ∃ items : List Json,
      (handle Mapping.typed
        (AppState.init [⟨7, .value "a", .value true, .value 5⟩, ⟨3, .null, .unset, .value 9⟩])
        ⟨true, 0, 1, ""⟩ ⟨"GET", "/tasks", .none⟩).2 = some ⟨200, .json (.arr items)⟩
      ∧ items.length = 2
      ∧ ∃ j : Json, items[1]? = some j
        ∧ j.field "_id" = some (.num 3)
        ∧ j.field "title" = some .null
        ∧ j.field "completed" = none
        ∧ j.field "createdAt" = some (.num 9) := by
  obtain ⟨items, h, _, _, hlen, hall⟩ := list_tasks_complete Mapping.typed
    (AppState.init [⟨7, .value "a", .value true, .value 5⟩, ⟨3, .null, .unset, .value 9⟩])
    ⟨true, 0, 1, ""⟩ .none (.obj []) _ rfl rfl
  obtain ⟨j, hj, hid, ht, hc, hd, _⟩ := hall 1 ⟨3, .null, .unset, .value 9⟩ rfl
  exact ⟨rfl, rfl, items, by rw [h], hlen, j, hj, hid, ht, hc, hd⟩

/-! ### Creating a task -/

/-- C4: when the save succeeds, `POST /tasks` answers 201 with a JSON object that is the
stored document (the JSON form of the one document added to the collection). The object
carries the newly generated identifier under `_id`; its `title` and `completed` are taken
from the body (no property when the body has none, the same string or boolean when the
body has one, in general what the mapping layer coerces the value of the body to); its
`createdAt` is the creation time when the body has no `createdAt` and the instant of the
body when it has one (in general the coerced value of the body). -/
theorem create_task_stored (M : Mapping) (st : AppState) (env : Env) (payload : Payload)
    (body : Json) (store1 : List Task) (task : Task) (hbody : expressJson payload = some body)
    (hsave : createTask M st.store env body = .ok (store1, task)) :
    ∃ j : Json,
      handle M st env ⟨"POST", "/tasks", payload⟩ =
        (⟨store1, st.httpRequestCounter.inc ⟨"POST", "/tasks", 201⟩⟩, some ⟨201, .json j⟩)
      ∧ store1 = st.store ++ [task]
      ∧ j = task.toJson
      ∧ j.field "_id" = some (.num env.freshId)
      ∧ (body.field "title" = none → j.field "title" = none)
      ∧ (∀ s, body.field "title" = some (.str s) → j.field "title" = some (.str s))
      ∧ (∀ v, body.field "title" = some v → ∃ c, M.castString v = some c
          ∧ j.field "title" = some (match c with | none => Json.null | some s => .str s))
      ∧ (body.field "completed" = none → j.field "completed" = none)
      ∧ (∀ b, body.field "completed" = some (.bool b) → j.field "completed" = some (.bool b))
      ∧ (∀ v, body.field "completed" = some v → ∃ c, M.castBool v = some c
          ∧ j.field "completed" = some (match c with | none => Json.null | some b => .bool b))
      ∧ (body.field "createdAt" = none → j.field "createdAt" = some (.num env.now))
      ∧ (∀ n, body.field "createdAt" = some (.num n) → j.field "createdAt" = some (.num n))
      ∧ (∀ v, body.field "createdAt" = some v → ∃ c, M.castDate v = some c
          ∧ j.field "createdAt" = some (match c with | none => Json.null | some n => .num n))
      ∧ j.field "__v" = some (.num 0) := by
  obtain ⟨hnew, hsv⟩ := createTask_ok M st.store store1 env body task hsave
  obtain ⟨hid, ht, hc, hd⟩ := Task.new_ok M env body task hnew
  obtain ⟨fid, ftitle, fcompleted, fcreated, fv⟩ := Task.toJson_fields task
  refine ⟨task.toJson, handle_createTask_ok M st env payload body store1 task hbody hsave,
    (Task.save_ok _ _ _ _ hsv).2.2, rfl, by rw [fid, hid], ?_, ?_, ?_, ?_, ?_, ?_, ?_, ?_, ?_,
    fv⟩
  · intro h
    rw [h] at ht
    rw [ftitle, castPath_none _ _ _ ht]
  · intro s h
    rw [h] at ht
    obtain ⟨c, h1, h2⟩ := castPath_some _ _ _ _ ht
    rw [M.castString_str] at h1
    rw [ftitle, h2, ← Option.some.inj h1]
  · intro v h
    rw [h] at ht
    obtain ⟨c, h1, h2⟩ := castPath_some _ _ _ _ ht
    refine ⟨c, h1, ?_⟩
    rw [ftitle, h2]
    cases c <;> rfl
  · intro h
    rw [h] at hc
    rw [fcompleted, castPath_none _ _ _ hc]
  · intro b h
    rw [h] at hc
    obtain ⟨c, h1, h2⟩ := castPath_some _ _ _ _ hc
    rw [M.castBool_bool] at h1
    rw [fcompleted, h2, ← Option.some.inj h1]
  · intro v h
    rw [h] at hc
    obtain ⟨c, h1, h2⟩ := castPath_some _ _ _ _ hc
    refine ⟨c, h1, ?_⟩
    rw [fcompleted, h2]
    cases c <;> rfl
  · intro h
    rw [h] at hd
    rw [fcreated, castPath_none _ _ _ hd]
  · intro n h
    rw [h] at hd
    obtain ⟨c, h1, h2⟩ := castPath_some _ _ _ _ hd
    rw [M.castDate_num] at h1
    rw [fcreated, h2, ← Option.some.inj h1]
  · intro v h
    rw [h] at hd
    obtain ⟨c, h1, h2⟩ := castPath_some _ _ _ _ hd
    refine ⟨c, h1, ?_⟩
    rw [fcreated, h2]
    cases c <;> rfl

/-- Witness for C4: a body with a title, a flag and its own `createdAt` (instant 42),
posted to an empty store at time 100: the answer is 201 with identifier 1, the title and
the flag of the body, and `createdAt` 42. -/
theorem create_task_stored_witness :
    expressJson (.json (.obj [("title", .str "a"), ("completed", .bool true),
        ("createdAt", .num 42)])) =
      some (.obj [("title", .str "a"), ("completed", .bool true), ("createdAt", .num 42)]) ∧
    createTask Mapping.typed (AppState.init []).store ⟨true, 100, 1, ""⟩
        (.obj [("title", .str "a"), ("completed", .bool true), ("createdAt", .num 42)]) =
      .ok ([⟨1, .value "a", .value true, .value 42⟩], ⟨1, .value "a", .value true, .value 42⟩) ∧
    ∃ j : Json,
      (handle Mapping.typed (AppState.init []) ⟨true, 100, 1, ""⟩
        ⟨"POST", "/tasks", .json (.obj [("title", .str "a"), ("completed", .bool true),
          ("createdAt", .num 42)])⟩).2 = some ⟨201, .json j⟩
      ∧ j.field "_id" = some (.num 1)
      ∧ j.field "title" = some (.str "a")
      ∧ j.field "completed" = some (.bool true)
      ∧ j.field "createdAt" = some (.num 42) := by
  obtain ⟨j, h, _, _, hid, _, ht, _, _, hc, _, _, hd, _⟩ :=
    create_task_stored Mapping.typed (AppState.init []) ⟨true, 100, 1, ""⟩
      (.json (.obj [("title", .str "a"), ("completed", .bool true), ("createdAt", .num 42)]))
      (.obj [("title", .str "a"), ("completed", .bool true), ("createdAt", .num 42)])
      _ _ rfl rfl
  exact ⟨rfl, rfl, j, by rw [h], hid, ht "a" rfl, hc true rfl, hd 42 rfl⟩

/-! ### Creating then listing -/

/-- C3: take a payload the body parser lets through, with a string `title`, a boolean
`completed` and no `createdAt`, and a store in which the persistence calls succeed (the
`POST /tasks` answers 201, the find of the following `GET /tasks` succeeds). Then the `GET`
answers 200 with a JSON list that contains the very document the `POST` returned: its
`title` and `completed` are those of the payload, its identifier is the one newly
generated in that `POST` and its `createdAt` is the time of that `POST`; no document
stored before the `POST`, and no item the list would have shown before it, has that
identifier. -/
theorem post_then_get_lists_task (M : Mapping) (st : AppState) (env1 env2 : Env)
    (payload1 : Payload) (body1 : Json) (t : String) (c : Bool) (res1 : Response)
    (payload2 : Payload) (body2 : Json) (tasks : List Task)
    (hbody1 : expressJson payload1 = some body1)
    (htitle : body1.field "title" = some (.str t))
    (hcompleted : body1.field "completed" = some (.bool c))
    (hcreated : body1.field "createdAt" = none)
    (hpost : (handle M st env1 ⟨"POST", "/tasks", payload1⟩).2 = some res1)
    (hsaved : res1.status = 201)
    (hbody2 : expressJson payload2 = some body2)
    (hfind : Task.find (handle M st env1 ⟨"POST", "/tasks", payload1⟩).1.store env2
      = .ok tasks) :
    ∃ (items : List Json) (j : Json),
      (handle M (handle M st env1 ⟨"POST", "/tasks", payload1⟩).1 env2
          ⟨"GET", "/tasks", payload2⟩).2 = some ⟨200, .json (.arr items)⟩
      ∧ j ∈ items
      ∧ res1 = ⟨201, .json j⟩
      ∧ j.field "title" = some (.str t)
      ∧ j.field "completed" = some (.bool c)
      ∧ j.field "_id" = some (.num env1.freshId)
      ∧ j.field "createdAt" = some (.num env1.now)
      ∧ (∀ d0 ∈ st.store, d0.id ≠ env1.freshId)
      ∧ (∀ j0 ∈ st.store.map Task.toJson, j0.field "_id" ≠ some (.num env1.freshId)) := by
  obtain ⟨store1, task, hsave⟩ :=
    createTask_of_created M st env1 payload1 body1 res1 hbody1 hpost hsaved
  obtain ⟨hnew, hsv⟩ := createTask_ok M st.store store1 env1 body1 task hsave
  obtain ⟨hid, ht, hc, hd⟩ := Task.new_ok M env1 body1 task hnew
  obtain ⟨_, hfresh, hstore⟩ := Task.save_ok _ _ _ _ hsv
  obtain ⟨fid, ftitle, fcompleted, fcreated, _⟩ := Task.toJson_fields task
  have hp := handle_createTask_ok M st env1 payload1 body1 store1 task hbody1 hsave
  rw [hp] at hpost hfind
  have hres : res1 = ⟨201, .json task.toJson⟩ := (Option.some.inj hpost).symm
  have htasks : tasks = store1 := Task.find_ok _ _ _ hfind
  have hget := handle_listTasks_ok M (handle M st env1 ⟨"POST", "/tasks", payload1⟩).1
    env2 payload2 body2 tasks hbody2 (by rw [hp]; exact hfind)
  refine ⟨tasks.map Task.toJson, task.toJson, by rw [hget], ?_, hres, ?_, ?_, ?_, ?_, ?_, ?_⟩
  · rw [htasks, hstore]
    simp
  · rw [htitle] at ht
    obtain ⟨x, h1, h2⟩ := castPath_some _ _ _ _ ht
    rw [M.castString_str] at h1
    rw [ftitle, h2, ← Option.some.inj h1]
  · rw [hcompleted] at hc
    obtain ⟨x, h1, h2⟩ := castPath_some _ _ _ _ hc
    rw [M.castBool_bool] at h1
    rw [fcompleted, h2, ← Option.some.inj h1]
  · rw [fid, hid]
  · rw [hcreated] at hd
    rw [fcreated, castPath_none _ _ _ hd]
  · intro d0 h0
    rw [← hid]
    exact hfresh d0 h0
  · intro j0 h0
    obtain ⟨d0, hd0, rfl⟩ := List.mem_map.mp h0
    rw [(Task.toJson_fields d0).1]
    intro heq
    have : d0.id = env1.freshId := by
      have h := Option.some.inj heq
      injection h with h
      exact Int.ofNat.inj h
    exact hfresh d0 hd0 (this.trans hid.symm)

/-- Witness for C3: `{title: "a", completed: true}` posted at time 100 with identifier 1
to a store that holds document 7, then listed. -/
theorem post_then_get_lists_task_witness :
    expressJson (.json (.obj [("title", .str "a"), ("completed", .bool true)])) =
      some (.obj [("title", .str "a"), ("completed", .bool true)]) ∧
    (handle Mapping.typed (AppState.init [⟨7, .unset, .null, .value 5⟩]) ⟨true, 100, 1, ""⟩
        ⟨"POST", "/tasks", .json (.obj [("title", .str "a"), ("completed", .bool true)])⟩).2 =
      some ⟨201, .json (Task.toJson ⟨1, .value "a", .value true, .value 100⟩)⟩ ∧
    expressJson Payload.none = some (.obj []) ∧
    Task.find (handle Mapping.typed (AppState.init [⟨7, .unset, .null, .value 5⟩])
        ⟨true, 100, 1, ""⟩
        ⟨"POST", "/tasks",
          .json (.obj [("title", .str "a"), ("completed", .bool true)])⟩).1.store
        (⟨true, 200, 2, ""⟩ : Env) =
      .ok [⟨7, .unset, .null, .value 5⟩, ⟨1, .value "a", .value true, .value 100⟩] ∧
    ∃ (items : List Json) (j : Json),
      (handle Mapping.typed (handle Mapping.typed
          (AppState.init [⟨7, .unset, .null, .value 5⟩]) ⟨true, 100, 1, ""⟩
          ⟨"POST", "/tasks", .json (.obj [("title", .str "a"), ("completed", .bool true)])⟩).1
          ⟨true, 200, 2, ""⟩ ⟨"GET", "/tasks", .none⟩).2 = some ⟨200, .json (.arr items)⟩
      ∧ j ∈ items
      ∧ j.field "title" = some (.str "a")
      ∧ j.field "completed" = some (.bool true)
      ∧ j.field "_id" = some (.num 1)
      ∧ j.field "createdAt" = some (.num 100) := by
  obtain ⟨items, j, h, hj, _, ht, hc, hid, hd, _⟩ :=
    post_then_get_lists_task Mapping.typed (AppState.init [⟨7, .unset, .null, .value 5⟩])
      ⟨true, 100, 1, ""⟩ ⟨true, 200, 2, ""⟩
      (.json (.obj [("title", .str "a"), ("completed", .bool true)]))
      (.obj [("title", .str "a"), ("completed", .bool true)]) "a" true
      ⟨201, .json (Task.toJson ⟨1, .value "a", .value true, .value 100⟩)⟩
      .none (.obj []) _ rfl rfl rfl rfl rfl rfl rfl rfl
  exact ⟨rfl, rfl, rfl, rfl, items, j, h, hj, ht, hc, hid, hd⟩

/-! ## The store only grows -/

theorem resolve_createTask (method path : String)
    (h : resolve method path = some .createTask) :
    method = "POST" ∧ pathMatches "/tasks" path = true := by
  simp only [resolve, routes, List.find?, Route.accepts, handlesMethod] at h
  repeat' split at h
  all_goals simp_all

theorem dispatch_cases (M : Mapping) (store : List Task) (counter : Counter) (env : Env)
    (req : Request) (body : Json) :
    (∃ res, dispatch M store counter env req body = .ok (store, res)) ∨
    (∃ task, dispatch M store counter env req body
        = .ok (store ++ [task], ⟨201, .json task.toJson⟩)
      ∧ req.method = "POST" ∧ pathMatches "/tasks" req.path = true) := by
  unfold dispatch
  cases hr : findRoute req with
  | none => exact .inl ⟨_, rfl⟩
  | some h =>
    cases h with
    | root => exact .inl ⟨_, rfl⟩
    | listTasks =>
      left
      simp only [runHandler, getTasks]
      cases Task.find store env <;> exact ⟨_, rfl⟩
    | metrics => exact .inl ⟨_, rfl⟩
    | health => exact .inl ⟨_, rfl⟩
    | createTask =>
      obtain ⟨hm, hp⟩ := resolve_createTask req.method req.path hr
      simp only [runHandler, postTasks]
      cases hc : createTask M store env body with
      | error e => exact .inl ⟨_, rfl⟩
      | ok r =>
        obtain ⟨store1, task⟩ := r
        right
        have hs := (Task.save_ok _ _ _ _ (createTask_ok M store store1 env body task hc).2).2.2
        refine ⟨task, ?_, hm, hp⟩
        simp [hm, hs]

/-- C9: no request updates or deletes a Task: whatever the request (method, path, body),
the store and the surroundings are, every document stored before the request is stored
with the same fields after it; the store changes only when a `POST /tasks` answers 201,
and then by exactly one document added at its end. -/
theorem store_only_grows (M : Mapping) (st : AppState) (env : Env) (req : Request) :
    (∀ d ∈ st.store, d ∈ (handle M st env req).1.store) ∧
    ((handle M st env req).1.store = st.store ∨
      ∃ task, (handle M st env req).1.store = st.store ++ [task]
        ∧ req.method = "POST" ∧ pathMatches "/tasks" req.path = true
        ∧ (handle M st env req).2 = some ⟨201, .json task.toJson⟩) := by
  have key : (handle M st env req).1.store = st.store ∨
      ∃ task, (handle M st env req).1.store = st.store ++ [task]
        ∧ req.method = "POST" ∧ pathMatches "/tasks" req.path = true
        ∧ (handle M st env req).2 = some ⟨201, .json task.toJson⟩ := by
    unfold handle
    cases hb : expressJson req.payload with
    | none => exact .inl rfl
    | some body =>
      rcases dispatch_cases M st.store st.httpRequestCounter env req body with
        ⟨res, h⟩ | ⟨task, h, hm, hp⟩
      · left
        simp [h]
      · right
        exact ⟨task, by simp [h], hm, hp, by simp [h]⟩
  refine ⟨?_, key⟩
  intro d hd
  rcases key with h | ⟨task, h, _⟩
  · rw [h]
    exact hd
  · rw [h]
    exact List.mem_append_left _ hd

/-! ## Counting responses -/

theorem Counter.get_inc (c : Counter) (l k : Labels) :
    Counter.get (Counter.inc c l) k = Counter.get c k + (if k = l then 1 else 0) := by
  induction c with
  | nil =>
    by_cases h : k = l
    · simp [Counter.inc, Counter.get, h]
    · have h2 : ¬ l = k := fun e => h e.symm
      simp [Counter.inc, Counter.get, h, h2]
  | cons p rest ih =>
    obtain ⟨q, v⟩ := p
    by_cases hq : q = l
    · by_cases hk : k = l
      · simp [Counter.inc, Counter.get, hq, hk]
      · have h2 : ¬ l = k := fun e => hk e.symm
        simp [Counter.inc, Counter.get, hq, hk, h2]
    · by_cases hqk : q = k
      · have hk : ¬ k = l := fun e => hq (hqk.trans e)
        simp [Counter.inc, Counter.get, hq, hqk, hk]
      · simp [Counter.inc, Counter.get, hq, hqk, ih]

theorem Counter.total_inc (c : Counter) (l : Labels) :
    Counter.total (Counter.inc c l) = Counter.total c + 1 := by
  induction c with
  | nil => simp [Counter.inc, Counter.total]
  | cons p rest ih =>
    obtain ⟨q, v⟩ := p
    by_cases hq : q = l
    · simp [Counter.inc, Counter.total, hq]
      omega
    · simp only [Counter.total] at ih
      simp [Counter.inc, Counter.total, hq, ih]
      omega

theorem dispatch_ok (M : Mapping) (store : List Task) (counter : Counter) (env : Env)
    (req : Request) (body : Json) :
    ∃ r, dispatch M store counter env req body = .ok r := by
  rcases dispatch_cases M store counter env req body with ⟨res, h⟩ | ⟨task, h, _⟩
  · exact ⟨_, h⟩
  · exact ⟨_, h⟩

/-- C10: a request that reaches the metrics middleware (the body parser let it pass) gets a
response, and when the response has finished the counter has been incremented once, for
the label set made of the method of the request, its `req.path`, and the status code of
the response that was sent: that sample is one higher, every other sample is unchanged. -/
theorem finish_hook_labels (M : Mapping) (st : AppState) (env : Env) (req : Request)
    (body : Json) (hbody : expressJson req.payload = some body) :
    ∃ res, (handle M st env req).2 = some res
      ∧ (handle M st env req).1.httpRequestCounter
          = st.httpRequestCounter.inc ⟨req.method, req.path, res.status⟩
      ∧ (∀ l, Counter.get (handle M st env req).1.httpRequestCounter l
          = Counter.get st.httpRequestCounter l
            + (if l = ⟨req.method, req.path, res.status⟩ then 1 else 0))
      ∧ Counter.total (handle M st env req).1.httpRequestCounter
          = Counter.total st.httpRequestCounter + 1 := by
  obtain ⟨⟨store1, res⟩, h⟩ := dispatch_ok M st.store st.httpRequestCounter env req body
  have hh : handle M st env req =
      (⟨store1, st.httpRequestCounter.inc ⟨req.method, req.path, res.status⟩⟩, some res) := by
    simp [handle, hbody, h]
  refine ⟨res, by rw [hh], by rw [hh], ?_, ?_⟩
  · intro l
    rw [hh]
    exact Counter.get_inc _ _ _
  · rw [hh]
    exact Counter.total_inc _ _

/-- Witness for C10: a `GET /tasks` whose find fails is counted under status 500. -/
theorem finish_hook_labels_witness :
    expressJson (Request.mk "GET" "/tasks" .none).payload = some (.obj []) ∧
    ∃ res, (handle Mapping.typed (AppState.init []) ⟨false, 0, 1, ""⟩
          ⟨"GET", "/tasks", .none⟩).2 = some res
      ∧ (handle Mapping.typed (AppState.init []) ⟨false, 0, 1, ""⟩
          ⟨"GET", "/tasks", .none⟩).1.httpRequestCounter
          = (AppState.init []).httpRequestCounter.inc
              ⟨(Request.mk "GET" "/tasks" .none).method,
                (Request.mk "GET" "/tasks" .none).path, res.status⟩
      ∧ (∀ l, Counter.get (handle Mapping.typed (AppState.init []) ⟨false, 0, 1, ""⟩
            ⟨"GET", "/tasks", .none⟩).1.httpRequestCounter l
          = Counter.get (AppState.init []).httpRequestCounter l
            + (if l = ⟨(Request.mk "GET" "/tasks" .none).method,
                (Request.mk "GET" "/tasks" .none).path, res.status⟩ then 1 else 0))
      ∧ Counter.total (handle Mapping.typed (AppState.init []) ⟨false, 0, 1, ""⟩
            ⟨"GET", "/tasks", .none⟩).1.httpRequestCounter
          = Counter.total (AppState.init []).httpRequestCounter + 1 :=
  ⟨rfl, finish_hook_labels Mapping.typed (AppState.init []) ⟨false, 0, 1, ""⟩
    ⟨"GET", "/tasks", .none⟩ (.obj []) rfl⟩

theorem handle_rejected (M : Mapping) (st : AppState) (env : Env) (req : Request)
    (hbody : expressJson req.payload = none) :
    handle M st env req = (st, some ⟨refusalStatus req.payload, .errorPage⟩) := by
  simp [handle, hbody]

/-- While every body passes the body parser, the counter grows by one per request. -/
theorem run_total_of_accepted (M : Mapping) (history : List (Env × Request))
    (hacc : ∀ x ∈ history, expressJson x.2.payload ≠ none) (st : AppState) :
    Counter.total (run M st history).1.httpRequestCounter
      = Counter.total st.httpRequestCounter + history.length := by
  induction history generalizing st with
  | nil => simp [run]
  | cons x rest ih =>
    obtain ⟨env, req⟩ := x
    have hx : expressJson req.payload ≠ none := hacc (env, req) (List.mem_cons_self _ _)
    obtain ⟨body, hb⟩ := Option.ne_none_iff_exists'.mp hx
    obtain ⟨⟨store1, res⟩, h⟩ := dispatch_ok M st.store st.httpRequestCounter env req body
    have hh : handle M st env req =
        (⟨store1, st.httpRequestCounter.inc ⟨req.method, req.path, res.status⟩⟩,
          some res) := by
      simp [handle, hb, h]
    simp only [run, List.length_cons]
    rw [ih (fun y hy => hacc y (List.mem_cons_of_mem _ hy)), hh, Counter.total_inc]
    omega

/-- C2, at the failing input: a `POST /tasks` whose JSON body does not parse, sent to a
fresh process, gets a response (status 400, written by Express for the body parser), and
the counter has no sample afterwards: one response has finished and the sum of
`http_requests_total` is 0, not 1. -/
theorem rejected_body_not_counted :
    (run Mapping.typed (AppState.init []) [(⟨true, 0, 1, ""⟩,
        ⟨"POST", "/tasks", .malformed⟩)]).2 = [some ⟨400, .errorPage⟩]
    ∧ Counter.total (run Mapping.typed (AppState.init []) [(⟨true, 0, 1, ""⟩,
        ⟨"POST", "/tasks", .malformed⟩)]).1.httpRequestCounter = 0
    ∧ Counter.total (run Mapping.typed (AppState.init []) [(⟨true, 0, 1, ""⟩,
        ⟨"POST", "/tasks", .malformed⟩)]).1.httpRequestCounter
      ≠ [((⟨true, 0, 1, ""⟩ : Env), Request.mk "POST" "/tasks" .malformed)].length := by
  refine ⟨rfl, rfl, ?_⟩
  decide

/-! ## The metrics endpoint -/

theorem render_names_counter (defaults : String) (c : Counter) :
    counterName.data <:+: (render defaults c).data := by
  refine ⟨defaults.data ++ "# HELP ".data,
    (" " ++ counterHelp ++ "\n# TYPE " ++ counterName ++ " counter\n"
      ++ String.join (c.map fun s => sampleLine s.1 s.2)).data, ?_⟩
  simp [render, String.data_append]

/-- C8: after any request history, the empty one included, `GET /metrics` answers 200 with
the text the registry renders from its current samples (rendering is a total function),
and that text contains the counter name `http_requests_total`. -/
theorem metrics_names_counter (M : Mapping) (store : List Task)
    (history : List (Env × Request)) (env : Env) (payload : Payload) (body : Json)
    (hbody : expressJson payload = some body) :
    ∃ text : String,
      (handle M (run M (AppState.init store) history).1 env
          ⟨"GET", "/metrics", payload⟩).2 = some ⟨200, .text text⟩
      ∧ text = render env.runtimeMetrics
          (run M (AppState.init store) history).1.httpRequestCounter
      ∧ "http_requests_total".data <:+: text.data := by
  refine ⟨_, ?_, rfl, render_names_counter _ _⟩
  simp [handle, hbody, dispatch, findRoute_metrics, runHandler, getMetrics]

/-- Witness for C8: `GET /metrics` as the first request of a fresh process. -/
theorem metrics_names_counter_witness :
    expressJson Payload.none = some (.obj []) ∧
    ∃ text : String,
      (handle Mapping.typed (run Mapping.typed (AppState.init []) []).1 ⟨true, 0, 1, ""⟩
          ⟨"GET", "/metrics", .none⟩).2 = some ⟨200, .text text⟩
      ∧ text = render (Env.mk true 0 1 "").runtimeMetrics
          (run Mapping.typed (AppState.init []) []).1.httpRequestCounter
      ∧ "http_requests_total".data <:+: text.data :=
  ⟨rfl, metrics_names_counter Mapping.typed [] [] ⟨true, 0, 1, ""⟩ .none (.obj []) rfl⟩

end TaskManager
